import Mathlib

/-!
Shallow embedding of the 2021_vk_projects renderer (point_light variant) for
specification checking.  The embedding covers:

* `src/utils/model.cpp` — `LoadMaterialFile` and `LoadModel`, the OBJ/MTL
  text-format loaders.  The stringstream tokenisation layer is abstracted:
  a file is a list of already-tokenised directives, where a directive that
  the C++ code reads with a possibly-failing `>>` extraction carries an
  `Option` for the extracted token.  Float coordinates are modelled as exact
  rationals; no verified property depends on floating-point rounding.
  `glm::normalize` is kept symbolic (`NormalVal.normalize`) since no claim
  inspects the numeric value of a normal.  A `std::vector` subscript that
  is out of bounds is undefined behaviour in C++; the embedding makes the
  load fail (`none`) at such an access.
* `src/point_light/app.cpp` — the swap-chain image-count computation in
  `App::CreateSwapChain`, the material mirror loop of
  `App::CreateDescriptorSets`, the `App::Init` short-circuit chain with the
  call-result checking behaviour of `CreateDescriptorSets` and
  `CreateVertexBuffers`, and the per-iteration fence protocol of
  `App::DrawFrame` as a trace-producing step function.
* `src/utils/vk.cpp` / `src/point_light/app.cpp` —
  `AllocateMemoryForResource`'s memory-type selection.
-/

namespace PointLight

/-- Coordinates of a `glm::vec3`, modelled as exact rationals. -/
structure Vec3 where
  x : ℚ
  y : ℚ
  z : ℚ
  deriving DecidableEq

/-- The zero vector, value of a zero-initialised `glm::vec3`. -/
def Vec3.zero : Vec3 := ⟨0, 0, 0⟩

/-- Componentwise subtraction, `a - b` on `glm::vec3`. -/
def Vec3.sub (a b : Vec3) : Vec3 := ⟨a.x - b.x, a.y - b.y, a.z - b.z⟩

/-- The cross product `glm::cross a b`. -/
def Vec3.cross (a b : Vec3) : Vec3 :=
  ⟨a.y * b.z - a.z * b.y, a.z * b.x - a.x * b.z, a.x * b.y - a.y * b.x⟩

/-- Symbolic value of `glm::normalize v`.  The loaders only ever store this
value; no verified property reads it back, so the floating-point division by
the length is not expanded. -/
inductive NormalVal where
  | normalize (v : Vec3)
  deriving DecidableEq

/-- `utils::Material` from `src/utils/model.h`: ambient and diffuse colors. -/
structure Material where
  ambient_color : Vec3
  diffuse_color : Vec3
  deriving DecidableEq

/-- Value of `Material mtl = {};` — zero-initialised colors. -/
def Material.init : Material := ⟨Vec3.zero, Vec3.zero⟩

/-- One tokenised line-directive of a material (`.mtl`) file.  `newmtl none`
models a `newmtl` directive with no following name token (the C++
`sstrm >> mtl_name` leaves the name empty).  `other` is any unrecognised
token, which `LoadMaterialFile` skips. -/
inductive MtlDirective where
  | newmtl (name : Option String)
  | ka (c : Vec3)
  | kd (c : Vec3)
  | other
  deriving DecidableEq

/-- Overwriting insert into the association list modelling the
`std::unordered_map<std::string, int>` of material names. -/
def mapInsert (m : List (String × Nat)) (k : String) (v : Nat) :
    List (String × Nat) :=
  (m.filter fun p => p.1 ≠ k) ++ [(k, v)]

/-- Local state of `LoadMaterialFile`: the output vectors and the pending
material being accumulated (`mtl`, `mtl_name`, `mtl_pending`). -/
structure MtlParseState where
  materials : List Material
  mtl_name_to_idx : List (String × Nat)
  mtl : Material
  mtl_name : String
  mtl_pending : Bool

/-- The `if (mtl_pending) { materials->push_back(mtl); ... }` block of
`LoadMaterialFile` (run on a new `newmtl` and at end of file). -/
def MtlParseState.flush (s : MtlParseState) : MtlParseState :=
  if s.mtl_pending then
    { s with
      materials := s.materials ++ [s.mtl]
      mtl_name_to_idx := mapInsert s.mtl_name_to_idx s.mtl_name
        s.materials.length
      mtl_pending := false }
  else s

/-- One iteration of the token loop of `LoadMaterialFile`
(`src/utils/model.cpp` lines 34-57).  `none` is the `return false` path:
a `newmtl` whose name token is missing. -/
def processMtlDirective (s : MtlParseState) :
    MtlDirective → Option MtlParseState
  | .newmtl name =>
    let s2 := s.flush
    match name with
    | none => none
    | some n =>
      some { s2 with mtl := Material.init, mtl_name := n, mtl_pending := true }
  | .ka c => some { s with mtl := { s.mtl with ambient_color := c } }
  | .kd c => some { s with mtl := { s.mtl with diffuse_color := c } }
  | .other => some s

/-- Runs the directive loop of `LoadMaterialFile` over the whole file. -/
def runMtlDirectives (s : MtlParseState) :
    List MtlDirective → Option MtlParseState
  | [] => some s
  | d :: ds =>
    match processMtlDirective s d with
    | none => none
    | some s2 => runMtlDirectives s2 ds

/-- `LoadMaterialFile` (`src/utils/model.cpp` lines 16-68) on a tokenised
file: returns the materials vector and the name-to-index map, or `none`
where the C++ function returns `false`. -/
def LoadMaterialFile (ds : List MtlDirective) :
    Option (List Material × List (String × Nat)) :=
  match runMtlDirectives ⟨[], [], Material.init, "", false⟩ ds with
  | none => none
  | some s =>
    let s2 := s.flush
    some (s2.materials, s2.mtl_name_to_idx)

/-- One tokenised line-directive of an OBJ file.  `mtllib none` models a
missing path token or an unopenable material file; `usemtl none` a missing
name token.  `f` carries every integer the C++ `while (sstrm >> i)` loop
extracts.  `comment` is a `#` token (the C++ code breaks out of the line). -/
inductive ObjDirective where
  | mtllib (file : Option (List MtlDirective))
  | usemtl (name : Option String)
  | v (p : Vec3)
  | f (idxs : List Int)
  | comment
  deriving DecidableEq

/-- `utils::Model` from `src/utils/model.h`.  `index_buffer` holds the
values of the `uint16_t` entries as naturals below 65536;
`material_indices` holds the `uint32_t` per-vertex material indices. -/
structure Model where
  positions : List Vec3
  normals : List NormalVal
  index_buffer : List Nat
  material_indices : List Nat
  materials : List Material
  deriving DecidableEq

/-- Local state of `LoadModel`: the declared-vertex list `positions`, the
16-bit running counter `current_idx`, the material table, and the output
arrays being built into `model`.  The C++ local `int mtl_idx` is read before
initialisation if a face precedes the first `usemtl`; it is modelled as 0,
and no verified property depends on that initial value. -/
structure ObjParseState where
  materials : List Material
  mtl_name_to_idx : List (String × Nat)
  positions : List Vec3
  current_idx : Nat
  mtl_idx : Nat
  out_positions : List Vec3
  out_normals : List NormalVal
  out_material_indices : List Nat
  out_index_buffer : List Nat

/-- The negative-index adjustment of `LoadModel` (lines 132-139):
`top_pos_idx + i` for a negative index `i`, where `top_pos_idx` is the
number of vertices declared so far. -/
def adjustFaceIndex (top i : Int) : Int := if i < 0 then top + i else i

/-- Adjusts every index of a face and fails (the C++ `return false`) when an
adjusted index is still negative. -/
def resolveFaceIndices (top : Int) (idxs : List Int) : Option (List Int) :=
  let adjusted := idxs.map (adjustFaceIndex top)
  if adjusted.all (fun i => 0 ≤ i) then some adjusted else none

/-- `positions[i]` on the declared-vertex vector.  The C++ subscript does
not check the upper bound (undefined behaviour past the end); the embedding
fails there. -/
def vertexAt (ps : List Vec3) (i : Int) : Option Vec3 := ps.get? i.toNat

/-- The 3-index face branch of `LoadModel` (lines 141-165).  The source
pushes normals under `if (face_normal_indices.empty())`; `face_normal_indices`
is cleared at line 126 and never filled, so that test is always true and the
push is unconditional here.  Index-buffer pushes follow `uint16_t`
arithmetic: values are reduced mod 65536. -/
def processFace3 (s : ObjParseState) (i0 i1 i2 : Int) : Option ObjParseState :=
  match vertexAt s.positions i0, vertexAt s.positions i1,
      vertexAt s.positions i2 with
  | some p0, some p1, some p2 =>
    let n1 := NormalVal.normalize ((p1.sub p0).cross (p2.sub p0))
    some { s with
      out_positions := s.out_positions ++ [p0, p1, p2]
      out_normals := s.out_normals ++ [n1, n1, n1]
      out_material_indices := s.out_material_indices ++
        [s.mtl_idx, s.mtl_idx, s.mtl_idx]
      out_index_buffer := s.out_index_buffer ++
        [s.current_idx, (s.current_idx + 1) % 65536, (s.current_idx + 2) % 65536]
      current_idx := (s.current_idx + 3) % 65536 }
  | _, _, _ => none

/-- The 4-index (quad) face branch of `LoadModel` (lines 166-207): vertices
are pushed in the fan order `[0], [1], [2], [0], [2], [3]` of the adjusted
index list. -/
def processFace4 (s : ObjParseState) (i0 i1 i2 i3 : Int) :
    Option ObjParseState :=
  match vertexAt s.positions i0, vertexAt s.positions i1,
      vertexAt s.positions i2, vertexAt s.positions i3 with
  | some p0, some p1, some p2, some p3 =>
    let n1 := NormalVal.normalize ((p1.sub p0).cross (p2.sub p0))
    let n2 := NormalVal.normalize ((p2.sub p0).cross (p3.sub p0))
    some { s with
      out_positions := s.out_positions ++ [p0, p1, p2, p0, p2, p3]
      out_normals := s.out_normals ++ [n1, n1, n1, n2, n2, n2]
      out_material_indices := s.out_material_indices ++
        [s.mtl_idx, s.mtl_idx, s.mtl_idx, s.mtl_idx, s.mtl_idx, s.mtl_idx]
      out_index_buffer := s.out_index_buffer ++
        [s.current_idx, (s.current_idx + 1) % 65536, (s.current_idx + 2) % 65536,
         (s.current_idx + 3) % 65536, (s.current_idx + 4) % 65536,
         (s.current_idx + 5) % 65536]
      current_idx := (s.current_idx + 6) % 65536 }
  | _, _, _, _ => none

/-- One iteration of the token loop of `LoadModel` (lines 96-211).  `none`
is any `return false` path: missing/unloadable material file, missing or
unresolvable `usemtl` name, an adjusted face index still negative, a face
with neither 3 nor 4 indices, or (embedding of undefined behaviour) a vertex
subscript past the end of the declared-vertex vector. -/
def processObjDirective (s : ObjParseState) :
    ObjDirective → Option ObjParseState
  | .mtllib file =>
    match file with
    | none => none
    | some mds =>
      match LoadMaterialFile mds with
      | none => none
      | some (mats, idx) =>
        some { s with materials := mats, mtl_name_to_idx := idx }
  | .usemtl name =>
    match name with
    | none => none
    | some n =>
      match s.mtl_name_to_idx.lookup n with
      | none => none
      | some i => some { s with mtl_idx := i }
  | .v p => some { s with positions := s.positions ++ [p] }
  | .f idxs =>
    match resolveFaceIndices (s.positions.length : Int) idxs with
    | none => none
    | some adj =>
      match adj with
      | [i0, i1, i2] => processFace3 s i0 i1 i2
      | [i0, i1, i2, i3] => processFace4 s i0 i1 i2 i3
      | _ => none
  | .comment => some s

/-- Runs the directive loop of `LoadModel` over the whole file. -/
def runObjDirectives (s : ObjParseState) :
    List ObjDirective → Option ObjParseState
  | [] => some s
  | d :: ds =>
    match processObjDirective s d with
    | none => none
    | some s2 => runObjDirectives s2 ds

/-- Initial local state of `LoadModel`. -/
def initObjState : ObjParseState := ⟨[], [], [], 0, 0, [], [], [], []⟩

/-- `LoadModel` (`src/utils/model.cpp` lines 72-220) on a tokenised OBJ
file: the built `Model`, or `none` where the C++ function returns `false`. -/
def LoadModel (ds : List ObjDirective) : Option Model :=
  match runObjDirectives initObjState ds with
  | none => none
  | some s =>
    some ⟨s.out_positions, s.out_normals, s.out_index_buffer,
      s.out_material_indices, s.materials⟩

/-! App::CreateSwapChain — image count selection (src/point_light/app.cpp
lines 631-633). -/

/-- Modulus of `uint32_t` arithmetic. -/
def u32Mod : Nat := 4294967296

/-- The two image-count fields of `VkSurfaceCapabilitiesKHR` read by
`App::CreateSwapChain` (both `uint32_t`). -/
structure SurfaceCapabilities where
  minImageCount : Nat
  maxImageCount : Nat
  deriving DecidableEq

/-- The requested swap-chain image count,
`std::min(surface_capabilities.minImageCount + 1,
surface_capabilities.maxImageCount)`, with the `+ 1` performed in
`uint32_t`. -/
def swapChainImageCount (caps : SurfaceCapabilities) : Nat :=
  min ((caps.minImageCount + 1) % u32Mod) caps.maxImageCount

/-! App::CreateDescriptorSets — the material mirror loop (src/point_light/
app.cpp lines 1619-1641) copying `model_.materials` into the
`Material materials[20]` array of `FragmentShaderUbo`. -/

/-- Capacity of the `materials` array in `FragmentShaderUbo`. -/
def kMaxMaterials : Nat := 20

/-- Builds the write log of the loop
`for (int i = 0; i < model_.materials.size(); ++i)
  frag_ubo_data.materials[i] = ...` starting at index `i`: one
`(slot index, copied material)` pair per executed iteration. -/
def materialWriteTraceFrom (i : Nat) : List Material → List (Nat × Material)
  | [] => []
  | m :: ms => (i, m) :: materialWriteTraceFrom (i + 1) ms

/-- The write log of the material mirror loop, which starts at slot 0 and
ends at `model_.materials.size()` with no bound check against the
20-element array. -/
def materialWriteTrace (mats : List Material) : List (Nat × Material) :=
  materialWriteTraceFrom 0 mats

/-! App::Init and its creation steps (src/point_light/app.cpp lines
428-480, 1479-1797).  Each fallible graphics call is an oracle boolean;
a step function combines its calls' outcomes exactly as the source checks
(or fails to check) them. -/

/-- Outcomes of the two fallible calls inside `CreateBuffer`
(`vkCreateBuffer` and `AllocateMemoryForResource`). -/
structure CreateBufferCall where
  vkCreateBuffer : Bool
  allocateMemory : Bool
  deriving DecidableEq

/-- `CreateBuffer` (src/point_light/app.cpp lines 408-424): fails when
either `vkCreateBuffer` or the memory allocation fails. -/
def CreateBuffer (c : CreateBufferCall) : Bool :=
  c.vkCreateBuffer && c.allocateMemory

/-- Outcomes of the fallible calls made by `App::CreateDescriptorSets`.
The two `CreateBuffer` lists hold one entry per swap-chain image (vertex
UBO loop, then fragment UBO loop). -/
structure DescriptorSetsCalls where
  createDescriptorPool : Bool
  allocateDescriptorSets : Bool
  vertUboBufferCalls : List CreateBufferCall
  fragUboBufferCalls : List CreateBufferCall
  createSampler : Bool
  deriving DecidableEq

/-- `App::CreateDescriptorSets` (lines 1479-1725) reduced to its
success-flag behaviour: the pool creation, set allocation and sampler
creation are checked and short-circuit, while the `CreateBuffer` calls at
lines 1590 and 1655 are made with their results discarded. -/
def CreateDescriptorSets (c : DescriptorSetsCalls) : Bool :=
  if !c.createDescriptorPool then false
  else if !c.allocateDescriptorSets then false
  else
    let _ := c.vertUboBufferCalls.map CreateBuffer
    let _ := c.fragUboBufferCalls.map CreateBuffer
    if !c.createSampler then false
    else true

/-- Outcomes of the four `CreateBuffer` calls made by
`App::CreateVertexBuffers` (position, normal, material-index, index). -/
structure VertexBuffersCalls where
  positionBufferCall : CreateBufferCall
  normalBufferCall : CreateBufferCall
  materialIdxBufferCall : CreateBufferCall
  indexBufferCall : CreateBufferCall
  deriving DecidableEq

/-- `App::CreateVertexBuffers` (lines 1727-1797): all four `CreateBuffer`
calls are made with their results discarded, and the function returns
`true` unconditionally. -/
def CreateVertexBuffers (c : VertexBuffersCalls) : Bool :=
  let _ := CreateBuffer c.positionBufferCall
  let _ := CreateBuffer c.normalBufferCall
  let _ := CreateBuffer c.materialIdxBufferCall
  let _ := CreateBuffer c.indexBufferCall
  true

/-- Outcomes of the steps of `App::Init` (lines 428-480).  Steps other than
`CreateDescriptorSets` and `CreateVertexBuffers` are modelled by their
returned success flag. -/
structure InitCalls where
  loadModelOk : Bool
  initInstanceAndSurface : Bool
  choosePhysicalDevice : Bool
  createDevice : Bool
  createSwapChain : Bool
  createScenePassResources : Bool
  createShadowPassResources : Bool
  createCommandPool : Bool
  createCommandBuffers : Bool
  descriptorSets : DescriptorSetsCalls
  vertexBuffers : VertexBuffersCalls
  recordCommandBuffers : Bool
  createSyncObjects : Bool
  deriving DecidableEq

/-- `App::Init` (lines 428-480): the `if (!Step()) return false;` chain. -/
def AppInit (c : InitCalls) : Bool :=
  c.loadModelOk && c.initInstanceAndSurface && c.choosePhysicalDevice &&
  c.createDevice && c.createSwapChain && c.createScenePassResources &&
  c.createShadowPassResources && c.createCommandPool &&
  c.createCommandBuffers && CreateDescriptorSets c.descriptorSets &&
  CreateVertexBuffers c.vertexBuffers && c.recordCommandBuffers &&
  c.createSyncObjects

/-! AllocateMemoryForResource — memory-type selection (src/utils/vk.cpp
lines 31-59; the copy in src/point_light/app.cpp lines 360-388 is
identical). -/

/-- The first memory-type index `i` (in loop order `0, 1, ...`) whose bit
is set in `memoryTypeBits` (`memoryTypeBits & (1 << i)`) and whose property
flags are a superset of the requested ones
(`(propertyFlags & mem_properties) == mem_properties`).  `types` lists the
`propertyFlags` of the device's memory types in index order. -/
def findMemoryTypeIndex (memoryTypeBits memProperties : Nat)
    (types : List Nat) : Option Nat :=
  (List.range types.length).find? fun i =>
    Nat.testBit memoryTypeBits i &&
      (Nat.land (types.getD i 0) memProperties == memProperties)

/-- `AllocateMemoryForResource`: fails when no memory type matches, else
succeeds precisely when the `vkAllocateMemory` call does. -/
def AllocateMemoryForResource (memProperties memoryTypeBits : Nat)
    (types : List Nat) (vkAllocateMemoryOk : Bool) : Bool :=
  match findMemoryTypeIndex memoryTypeBits memProperties types with
  | none => false
  | some _ => vkAllocateMemoryOk

/-! App::DrawFrame — per-iteration fence protocol (src/point_light/app.cpp
lines 2175-2256), as a trace-producing step function.  Fences and
semaphores are identified by their in-flight slot index; the
`image_rendered_fences_` table maps an image index to the slot whose
`frame_ready` fence it holds (`none` for `VK_NULL_HANDLE`). -/

/-- `kMaxFramesInFlight` (src/point_light/app.cpp line 35). -/
def kMaxFramesInFlight : Nat := 3

/-- Result of `vkAcquireNextImageKHR` / `vkQueuePresentKHR` as the code
distinguishes them. -/
inductive VkStatus where
  | success
  | suboptimal
  | outOfDate
  | failure
  deriving DecidableEq

/-- Environment of one `DrawFrame` iteration: the results the driver
returns to each call. -/
structure DrawFrameEnv where
  acquireResult : VkStatus
  imageIndex : Nat
  submitOk : Bool
  presentResult : VkStatus
  framebufferResized : Bool
  deriving DecidableEq

/-- The frame-loop state `DrawFrame` reads and writes: `current_frame_`
and the `image_rendered_fences_` association table. -/
structure FrameLoopState where
  current_frame : Nat
  image_rendered_fences : List (Option Nat)
  deriving DecidableEq

/-- Observable events of one `DrawFrame` iteration, in program order. -/
inductive DrawEvent where
  | waitFrameReadyFence (slot : Nat)
  | waitImageRenderedFence (slot : Nat)
  | resetFrameReadyFence (slot : Nat)
  | submitFenced (image slot : Nat)
  | recreateSwapChain
  deriving DecidableEq

/-- Result of one `DrawFrame` iteration: the event trace, the returned
`bool` (false terminates the frame loop), and the updated state. -/
structure DrawFrameOut where
  trace : List DrawEvent
  keepRunning : Bool
  state : FrameLoopState
  deriving DecidableEq

/-- `App::DrawFrame` (lines 2175-2256).  Program order: wait on the current
slot's `frame_ready` fence; acquire (OUT_OF_DATE recreates and returns true
without touching the fence; other non-success/non-suboptimal results return
false); wait on any pending `image_rendered` fence for the acquired image;
associate that image with the current slot's fence; reset the current
slot's fence; submit fenced by it (a failed submit returns false); present
(stale/suboptimal/resized recreates, other failures return false); advance
`current_frame_` round-robin. -/
def DrawFrame (env : DrawFrameEnv) (s : FrameLoopState) : DrawFrameOut :=
  let ev0 := [DrawEvent.waitFrameReadyFence s.current_frame]
  if env.acquireResult = .outOfDate then
    ⟨ev0 ++ [.recreateSwapChain], true, s⟩
  else if env.acquireResult ≠ .success ∧ env.acquireResult ≠ .suboptimal then
    ⟨ev0, false, s⟩
  else
    let pending := s.image_rendered_fences.getD env.imageIndex none
    let ev1 :=
      match pending with
      | some slot => ev0 ++ [.waitImageRenderedFence slot]
      | none => ev0
    let fences := s.image_rendered_fences.set env.imageIndex
      (some s.current_frame)
    let ev2 := ev1 ++ [.resetFrameReadyFence s.current_frame]
    if !env.submitOk then
      ⟨ev2, false, { s with image_rendered_fences := fences }⟩
    else
      let ev3 := ev2 ++ [.submitFenced env.imageIndex s.current_frame]
      if env.presentResult = .outOfDate ∨ env.presentResult = .suboptimal ∨
          env.framebufferResized then
        ⟨ev3 ++ [.recreateSwapChain], true,
          { s with image_rendered_fences := fences }⟩
      else if env.presentResult ≠ .success then
        ⟨ev3, false, { s with image_rendered_fences := fences }⟩
      else
        ⟨ev3, true,
          ⟨(s.current_frame + 1) % kMaxFramesInFlight, fences⟩⟩

/-! Invariant predicates for the `LoadModel` state machine. -/

/-- The identity sequence of length `n` reduced mod 65536: the value the
`uint16_t` counter protocol writes into `index_buffer`. -/
def idSeqMod (n : Nat) : List Nat :=
  (List.range n).map (fun k => k % 65536)

/-- State invariant of the `LoadModel` directive loop: the three per-vertex
output arrays stay equally long, the index buffer is the identity sequence
mod 65536, and `current_idx` tracks the emitted-vertex count mod 65536. -/
def ObjInv (s : ObjParseState) : Prop :=
  s.out_normals.length = s.out_positions.length ∧
  s.out_material_indices.length = s.out_positions.length ∧
  s.out_index_buffer = idSeqMod s.out_positions.length ∧
  s.current_idx = s.out_positions.length % 65536

/-! Concrete inputs used by witnesses and counterexamples. -/

/-- A material file of 21 `newmtl` entries. -/
def twentyOneMtl : List MtlDirective :=
  List.replicate 21 (MtlDirective.newmtl (some "m"))

/-- A material file of exactly 20 `newmtl` entries. -/
def twentyMtl : List MtlDirective :=
  List.replicate 20 (MtlDirective.newmtl (some "m"))

/-- An OBJ file whose material file declares 21 materials. -/
def obj21 : List ObjDirective := [ObjDirective.mtllib (some twentyOneMtl)]

/-- The model loaded from `obj21`. -/
def model21 : Model := (LoadModel obj21).getD ⟨[], [], [], [], []⟩

/-- A one-triangle OBJ file (indices written 0-based, as the code actually
consumes them). -/
def demoObj : List ObjDirective :=
  [ObjDirective.v ⟨0, 0, 0⟩, ObjDirective.v ⟨1, 0, 0⟩,
   ObjDirective.v ⟨0, 1, 0⟩, ObjDirective.f [0, 1, 2]]

/-- The model loaded from `demoObj`. -/
def demoModel : Model := (LoadModel demoObj).getD ⟨[], [], [], [], []⟩

/-- The all-success outcome of a `CreateBuffer` call. -/
def okBuffer : CreateBufferCall := ⟨true, true⟩

/-- `InitCalls` in which every fallible call succeeds. -/
def allOkInit : InitCalls :=
  ⟨true, true, true, true, true, true, true, true, true,
   ⟨true, true, [okBuffer], [okBuffer], true⟩,
   ⟨okBuffer, okBuffer, okBuffer, okBuffer⟩, true, true⟩

/-- `InitCalls` in which the position-buffer `vkCreateBuffer` call inside
`CreateVertexBuffers` fails and everything else succeeds. -/
def failPosBufferInit : InitCalls :=
  { allOkInit with
    vertexBuffers := ⟨⟨false, true⟩, okBuffer, okBuffer, okBuffer⟩ }

/-- A `DrawFrame` environment where every call succeeds and image 1 is
acquired. -/
def demoDrawEnv : DrawFrameEnv := ⟨.success, 1, true, .success, false⟩

/-- A frame-loop state at slot 0 with no pending image fences. -/
def demoLoopState : FrameLoopState := ⟨0, [none, none, none]⟩

/-- `InitCalls` in which only the swap-chain creation step fails. -/
def failSwapChainInit : InitCalls := { allOkInit with createSwapChain := false }

/-! Helper lemmas for the `LoadModel` invariant. -/

theorem idSeqMod_succ (n : Nat) :
    idSeqMod (n + 1) = idSeqMod n ++ [n % 65536] := by
  simp [idSeqMod, List.range_succ]

theorem idSeqMod_add (n k : Nat) :
    idSeqMod (n + k) =
      idSeqMod n ++ (List.range k).map (fun j => (n + j) % 65536) := by
  simp [idSeqMod, List.range_add, List.map_map, Function.comp]

theorem idSeqMod_add_three (n : Nat) :
    idSeqMod (n + 3) = idSeqMod n ++
      [n % 65536, (n + 1) % 65536, (n + 2) % 65536] := by
  rw [idSeqMod_add]
  congr 1

theorem idSeqMod_add_six (n : Nat) :
    idSeqMod (n + 6) = idSeqMod n ++
      [n % 65536, (n + 1) % 65536, (n + 2) % 65536,
       (n + 3) % 65536, (n + 4) % 65536, (n + 5) % 65536] := by
  rw [idSeqMod_add]
  congr 1

theorem processFace3_inv {s s2 : ObjParseState} {i0 i1 i2 : Int}
    (hinv : ObjInv s) (h : processFace3 s i0 i1 i2 = some s2) : ObjInv s2 := by
  obtain ⟨h1, h2, h3, h4⟩ := hinv
  unfold processFace3 at h
  split at h
  case h_2 => exact absurd h (by simp)
  case h_1 p0 p1 p2 heq0 heq1 heq2 =>
    cases h
    refine ⟨?_, ?_, ?_, ?_⟩
    · simp [h1]
    · simp [h2]
    · show s.out_index_buffer ++
        [s.current_idx, (s.current_idx + 1) % 65536,
          (s.current_idx + 2) % 65536] =
        idSeqMod (s.out_positions ++ [p0, p1, p2]).length
      have hn : (s.out_positions ++ [p0, p1, p2]).length
          = s.out_positions.length + 3 := by simp
      have e1 : (s.current_idx + 1) % 65536
          = (s.out_positions.length + 1) % 65536 := by omega
      have e2 : (s.current_idx + 2) % 65536
          = (s.out_positions.length + 2) % 65536 := by omega
      rw [hn, idSeqMod_add_three, e1, e2, h3, h4]
    · show (s.current_idx + 3) % 65536 =
        (s.out_positions ++ [p0, p1, p2]).length % 65536
      have hl : ([p0, p1, p2] : List Vec3).length = 3 := rfl
      rw [List.length_append, hl]
      omega

theorem processFace4_inv {s s2 : ObjParseState} {i0 i1 i2 i3 : Int}
    (hinv : ObjInv s) (h : processFace4 s i0 i1 i2 i3 = some s2) :
    ObjInv s2 := by
  obtain ⟨h1, h2, h3, h4⟩ := hinv
  unfold processFace4 at h
  split at h
  case h_2 => exact absurd h (by simp)
  case h_1 p0 p1 p2 p3 heq0 heq1 heq2 heq3 =>
    cases h
    refine ⟨?_, ?_, ?_, ?_⟩
    · simp [h1]
    · simp [h2]
    · show s.out_index_buffer ++
        [s.current_idx, (s.current_idx + 1) % 65536,
          (s.current_idx + 2) % 65536, (s.current_idx + 3) % 65536,
          (s.current_idx + 4) % 65536, (s.current_idx + 5) % 65536] =
        idSeqMod (s.out_positions ++ [p0, p1, p2, p0, p2, p3]).length
      have hn : (s.out_positions ++ [p0, p1, p2, p0, p2, p3]).length
          = s.out_positions.length + 6 := by simp
      have e1 : (s.current_idx + 1) % 65536
          = (s.out_positions.length + 1) % 65536 := by omega
      have e2 : (s.current_idx + 2) % 65536
          = (s.out_positions.length + 2) % 65536 := by omega
      have e3 : (s.current_idx + 3) % 65536
          = (s.out_positions.length + 3) % 65536 := by omega
      have e4 : (s.current_idx + 4) % 65536
          = (s.out_positions.length + 4) % 65536 := by omega
      have e5 : (s.current_idx + 5) % 65536
          = (s.out_positions.length + 5) % 65536 := by omega
      rw [hn, idSeqMod_add_six, e1, e2, e3, e4, e5, h3, h4]
    · show (s.current_idx + 6) % 65536 =
        (s.out_positions ++ [p0, p1, p2, p0, p2, p3]).length % 65536
      have hl : ([p0, p1, p2, p0, p2, p3] : List Vec3).length = 6 := rfl
      rw [List.length_append, hl]
      omega

theorem processObjDirective_inv {s s2 : ObjParseState} {d : ObjDirective}
    (hinv : ObjInv s) (h : processObjDirective s d = some s2) : ObjInv s2 := by
  cases d with
  | mtllib file =>
    simp only [processObjDirective] at h
    split at h
    · exact absurd h (by simp)
    · split at h
      · exact absurd h (by simp)
      · cases h; exact hinv
  | usemtl name =>
    simp only [processObjDirective] at h
    split at h
    · exact absurd h (by simp)
    · split at h
      · exact absurd h (by simp)
      · cases h; exact hinv
  | v p =>
    simp only [processObjDirective] at h
    cases h; exact hinv
  | f idxs =>
    simp only [processObjDirective] at h
    split at h
    · exact absurd h (by simp)
    · split at h
      · exact processFace3_inv hinv h
      · exact processFace4_inv hinv h
      · exact absurd h (by simp)
  | comment =>
    simp only [processObjDirective] at h
    cases h; exact hinv

theorem runObjDirectives_inv :
    ∀ (ds : List ObjDirective) {s s2 : ObjParseState},
      ObjInv s → runObjDirectives s ds = some s2 → ObjInv s2
  | [], s, s2, hinv, h => by
    simp only [runObjDirectives] at h
    cases h; exact hinv
  | d :: ds, s, s2, hinv, h => by
    simp only [runObjDirectives] at h
    cases hd : processObjDirective s d with
    | none => rw [hd] at h; exact absurd h (by simp)
    | some s3 =>
      rw [hd] at h
      exact runObjDirectives_inv ds (processObjDirective_inv hinv hd) h

theorem initObjState_inv : ObjInv initObjState := by
  refine ⟨rfl, rfl, ?_, rfl⟩
  simp [initObjState, idSeqMod]

theorem loadModel_state_inv {ds : List ObjDirective} {m : Model}
    (h : LoadModel ds = some m) :
    m.normals.length = m.positions.length ∧
    m.material_indices.length = m.positions.length ∧
    m.index_buffer = idSeqMod m.positions.length := by
  unfold LoadModel at h
  cases hr : runObjDirectives initObjState ds with
  | none => rw [hr] at h; exact absurd h (by simp)
  | some s =>
    rw [hr] at h
    cases h
    obtain ⟨h1, h2, h3, _⟩ := runObjDirectives_inv ds initObjState_inv hr
    exact ⟨h1, h2, h3⟩

theorem runMtlDirectives_newmtl_none (pre post : List MtlDirective) :
    ∀ s : MtlParseState,
      runMtlDirectives s (pre ++ MtlDirective.newmtl none :: post) = none := by
  induction pre with
  | nil => intro s; rfl
  | cons d pre ih =>
    intro s
    show (match processMtlDirective s d with
      | none => none
      | some s2 =>
        runMtlDirectives s2 (pre ++ MtlDirective.newmtl none :: post)) = none
    cases processMtlDirective s d with
    | none => rfl
    | some s2 => exact ih s2

/-- C4: for every input on which `LoadModel` succeeds, the returned model
has equally many positions, normals and material indices, and every value
in `index_buffer` is strictly less than the number of positions. -/
theorem loadModel_mesh_invariants (ds : List ObjDirective) (m : Model)
    (h : LoadModel ds = some m) :
    m.positions.length = m.normals.length ∧
    m.positions.length = m.material_indices.length ∧
    ∀ e ∈ m.index_buffer, e < m.positions.length := by
  obtain ⟨h1, h2, h3⟩ := loadModel_state_inv h
  refine ⟨h1.symm, h2.symm, ?_⟩
  intro e he
  rw [h3, idSeqMod] at he
  obtain ⟨k, hk, hke⟩ := List.mem_map.mp he
  have hklt := List.mem_range.mp hk
  omega

theorem loadModel_mesh_invariants_witness :
    LoadModel demoObj = some demoModel ∧
    (demoModel.positions.length = demoModel.normals.length ∧
     demoModel.positions.length = demoModel.material_indices.length ∧
     ∀ e ∈ demoModel.index_buffer, e < demoModel.positions.length) :=
  ⟨rfl, loadModel_mesh_invariants demoObj demoModel rfl⟩

/-- C9: for every input on which `LoadModel` succeeds, `index_buffer` is
the identity sequence mod 2^16: entry `i` equals `i % 65536`. -/
theorem loadModel_index_buffer_identity (ds : List ObjDirective) (m : Model)
    (h : LoadModel ds = some m) :
    m.index_buffer =
      (List.range m.index_buffer.length).map (fun k => k % 65536) := by
  obtain ⟨_, _, h3⟩ := loadModel_state_inv h
  have hlen : m.index_buffer.length = m.positions.length := by
    rw [h3, idSeqMod]
    simp
  rw [hlen, h3, idSeqMod]

theorem loadModel_index_buffer_identity_witness :
    demoModel.index_buffer =
      (List.range demoModel.index_buffer.length).map (fun k => k % 65536) :=
  loadModel_index_buffer_identity demoObj demoModel rfl

/-- C5: the claim expects the quad face `f 1 2 3 4` over declared vertices
`v1..v4` to emit positions `[v1,v2,v3,v1,v3,v4]` (1-based indexing).  The
code indexes the 0-based vertex vector without subtracting 1, so this input
reads `positions[4]`, one past the end of the 4-element vector — undefined
behaviour in C++, failure in the embedding.  With 5 declared vertices the
same face succeeds but emits the off-by-one fan `[v2,v3,v4,v2,v4,v5]`. -/
theorem loadModel_quad_positive_index_bug :
    LoadModel [ObjDirective.v ⟨0, 0, 0⟩, ObjDirective.v ⟨1, 0, 0⟩,
      ObjDirective.v ⟨1, 1, 0⟩, ObjDirective.v ⟨0, 1, 0⟩,
      ObjDirective.f [1, 2, 3, 4]] = none ∧
    (LoadModel [ObjDirective.v ⟨1, 0, 0⟩, ObjDirective.v ⟨2, 0, 0⟩,
      ObjDirective.v ⟨3, 0, 0⟩, ObjDirective.v ⟨4, 0, 0⟩,
      ObjDirective.v ⟨5, 0, 0⟩,
      ObjDirective.f [1, 2, 3, 4]]).map Model.positions =
      some [⟨2, 0, 0⟩, ⟨3, 0, 0⟩, ⟨4, 0, 0⟩,
            ⟨2, 0, 0⟩, ⟨4, 0, 0⟩, ⟨5, 0, 0⟩] := by
  exact ⟨rfl, rfl⟩

/-- C6: a face `f -1 -2 -3` after exactly 5 declared vertices resolves the
negative indices relative to the end of the vertex list, emitting the
1-based vertices `[5, 4, 3]`. -/
theorem loadModel_negative_face_indices (p1 p2 p3 p4 p5 : Vec3) :
    (LoadModel [ObjDirective.v p1, ObjDirective.v p2, ObjDirective.v p3,
      ObjDirective.v p4, ObjDirective.v p5,
      ObjDirective.f [-1, -2, -3]]).map Model.positions =
      some [p5, p4, p3] := rfl

theorem loadModel_negative_face_indices_witness :
    (LoadModel [ObjDirective.v ⟨1, 0, 0⟩, ObjDirective.v ⟨2, 0, 0⟩,
      ObjDirective.v ⟨3, 0, 0⟩, ObjDirective.v ⟨4, 0, 0⟩,
      ObjDirective.v ⟨5, 0, 0⟩,
      ObjDirective.f [-1, -2, -3]]).map Model.positions =
      some [⟨5, 0, 0⟩, ⟨4, 0, 0⟩, ⟨3, 0, 0⟩] :=
  loadModel_negative_face_indices ⟨1, 0, 0⟩ ⟨2, 0, 0⟩ ⟨3, 0, 0⟩ ⟨4, 0, 0⟩
    ⟨5, 0, 0⟩

/-- C10: in `LoadMaterialFile`, a material declared by `newmtl` whose `Ka`
or `Kd` directive is absent keeps the zero-initialised color `(0,0,0)`,
while a `newmtl` directive with no name token makes loading fail. -/
theorem loadMaterialFile_defaults_and_missing_name (n : String) (c : Vec3) :
    LoadMaterialFile [MtlDirective.newmtl (some n)] =
      some ([⟨Vec3.zero, Vec3.zero⟩], [(n, 0)]) ∧
    LoadMaterialFile [MtlDirective.newmtl (some n), MtlDirective.kd c] =
      some ([⟨Vec3.zero, c⟩], [(n, 0)]) ∧
    LoadMaterialFile [MtlDirective.newmtl (some n), MtlDirective.ka c] =
      some ([⟨c, Vec3.zero⟩], [(n, 0)]) ∧
    ∀ pre post : List MtlDirective,
      LoadMaterialFile (pre ++ MtlDirective.newmtl none :: post) = none := by
  refine ⟨rfl, rfl, rfl, ?_⟩
  intro pre post
  unfold LoadMaterialFile
  rw [runMtlDirectives_newmtl_none]

theorem loadMaterialFile_defaults_witness :
    LoadMaterialFile [MtlDirective.newmtl (some "m"),
      MtlDirective.kd ⟨1, 2, 3⟩] =
      some ([⟨Vec3.zero, ⟨1, 2, 3⟩⟩], [("m", 0)]) :=
  (loadMaterialFile_defaults_and_missing_name "m" ⟨1, 2, 3⟩).2.1

theorem materialWriteTraceFrom_map_snd (i : Nat) (ms : List Material) :
    (materialWriteTraceFrom i ms).map Prod.snd = ms := by
  induction ms generalizing i with
  | nil => rfl
  | cons m ms ih => simp [materialWriteTraceFrom, ih]

theorem materialWriteTraceFrom_bound_iff (i b : Nat) (ms : List Material) :
    (∀ w ∈ materialWriteTraceFrom i ms, w.1 < b) ↔
      (ms.length = 0 ∨ i + ms.length ≤ b) := by
  induction ms generalizing i with
  | nil => simp [materialWriteTraceFrom]
  | cons m ms ih =>
    simp only [materialWriteTraceFrom, List.mem_cons, List.length_cons]
    constructor
    · intro h
      have hi : i < b := h (i, m) (Or.inl rfl)
      have hrec := (ih (i + 1)).mp (fun w hw => h w (Or.inr hw))
      omega
    · intro h w hw
      rcases hw with hw | hw
      · subst hw; omega
      · exact (ih (i + 1)).mpr (by omega) w hw

/-- C1 counterexample: `obj21` loads successfully as a model with 21
materials, and the mirror loop of `App::CreateDescriptorSets` then performs
a write at slot 20 — outside the 20-entry `materials` array of the fragment
uniform block — instead of dropping the material beyond the ceiling. -/
theorem materialMirror_write_escapes_array :
    LoadModel obj21 = some model21 ∧
    model21.materials.length = 21 ∧
    20 ∈ (materialWriteTrace model21.materials).map Prod.fst ∧
    ¬ (20 < kMaxMaterials) := by
  refine ⟨rfl, by decide, by decide, by decide⟩

/-- C1 (amended): for every successfully loaded model, the mirror loop of
`App::CreateDescriptorSets` copies the model's material list 1:1, one write
per material with no bound check; all of its writes stay inside the
20-entry array precisely when the model has at most 20 materials (materials
beyond the ceiling are written out of bounds, not silently dropped); and
loading a material file with exactly 20 entries succeeds. -/
theorem materialMirror_bounds (ds : List ObjDirective) (m : Model)
    (h : LoadModel ds = some m) :
    (materialWriteTrace m.materials).map Prod.snd = m.materials ∧
    ((∀ w ∈ materialWriteTrace m.materials, w.1 < kMaxMaterials) ↔
      m.materials.length ≤ kMaxMaterials) ∧
    (LoadMaterialFile twentyMtl).map (fun r => r.1.length) = some 20 := by
  refine ⟨materialWriteTraceFrom_map_snd 0 m.materials, ?_, by decide⟩
  rw [materialWriteTrace, materialWriteTraceFrom_bound_iff]
  simp only [kMaxMaterials]
  omega

theorem materialMirror_bounds_witness :
    (materialWriteTrace model21.materials).map Prod.snd = model21.materials :=
  (materialMirror_bounds obj21 model21 rfl).1

/-- C2 counterexample: with every call succeeding except the
position-buffer `vkCreateBuffer` inside `CreateVertexBuffers`, that buffer
creation fails yet `App::Init` still returns true, because
`CreateVertexBuffers` discards the results of its `CreateBuffer` calls. -/
theorem appInit_ignores_failed_buffer_creation :
    CreateBuffer failPosBufferInit.vertexBuffers.positionBufferCall = false ∧
    AppInit failPosBufferInit = true := by decide

/-- C2 (amended): a failure of any checked creation step — the nine
flag-checked init steps, or the pool/set/sampler creations inside
`CreateDescriptorSets` — short-circuits `App::Init` to false; the
`CreateBuffer` calls inside `CreateDescriptorSets` and
`CreateVertexBuffers` are the exception, as their results are ignored. -/
theorem appInit_short_circuits_checked_steps (c : InitCalls)
    (h : c.loadModelOk = false ∨ c.initInstanceAndSurface = false ∨
      c.choosePhysicalDevice = false ∨ c.createDevice = false ∨
      c.createSwapChain = false ∨ c.createScenePassResources = false ∨
      c.createShadowPassResources = false ∨ c.createCommandPool = false ∨
      c.createCommandBuffers = false ∨
      c.descriptorSets.createDescriptorPool = false ∨
      c.descriptorSets.allocateDescriptorSets = false ∨
      c.descriptorSets.createSampler = false ∨
      c.recordCommandBuffers = false ∨ c.createSyncObjects = false) :
    AppInit c = false := by
  rcases h with h | h | h | h | h | h | h | h | h | h | h | h | h | h <;>
    simp [AppInit, CreateDescriptorSets, CreateVertexBuffers, h]

theorem appInit_short_circuits_witness :
    AppInit failSwapChainInit = false :=
  appInit_short_circuits_checked_steps failSwapChainInit (by decide)

/-- C3: for every surface-capabilities report (whose `uint32_t` increment
does not wrap), `App::CreateSwapChain` requests an image count equal to
`min(minImageCount + 1, maxImageCount)`: it never exceeds the surface's
maximum and is one more than the minimum whenever that fits below the
maximum. -/
theorem createSwapChain_image_count (caps : SurfaceCapabilities)
    (h : caps.minImageCount + 1 < u32Mod) :
    swapChainImageCount caps =
      min (caps.minImageCount + 1) caps.maxImageCount ∧
    swapChainImageCount caps ≤ caps.maxImageCount ∧
    (caps.minImageCount + 1 ≤ caps.maxImageCount →
      swapChainImageCount caps = caps.minImageCount + 1) := by
  simp only [swapChainImageCount, u32Mod] at h ⊢
  omega

theorem createSwapChain_image_count_witness :
    2 + 1 < u32Mod ∧ swapChainImageCount ⟨2, 8⟩ = min (2 + 1) 8 :=
  ⟨by decide, (createSwapChain_image_count ⟨2, 8⟩ (by decide)).1⟩

theorem findMemoryTypeIndex_sound (memoryTypeBits memProperties : Nat)
    (types : List Nat) (i : Nat)
    (h : findMemoryTypeIndex memoryTypeBits memProperties types = some i) :
    i < types.length ∧ Nat.testBit memoryTypeBits i ∧
      Nat.land (types.getD i 0) memProperties = memProperties := by
  have hmem := List.mem_of_find?_eq_some h
  have hp := List.find?_some h
  simp only [Bool.and_eq_true, beq_iff_eq] at hp
  exact ⟨List.mem_range.mp hmem, hp.1, hp.2⟩

theorem findMemoryTypeIndex_none_fail (memoryTypeBits memProperties : Nat)
    (types : List Nat)
    (h : ∀ i < types.length, ¬ (Nat.testBit memoryTypeBits i ∧
      Nat.land (types.getD i 0) memProperties = memProperties)) :
    ∀ ok, AllocateMemoryForResource memProperties memoryTypeBits types ok
      = false := by
  intro ok
  unfold AllocateMemoryForResource
  have hnone : findMemoryTypeIndex memoryTypeBits memProperties types
      = none := by
    apply List.find?_eq_none.mpr
    intro i hi
    have hlt := List.mem_range.mp hi
    have := h i hlt
    simp only [Bool.and_eq_true, beq_iff_eq]
    tauto
  rw [hnone]

/-- C7: for all requested `(typeBitmask, propertyFlags)` pairs, a selected
memory-type index has its bit set in the bitmask and property flags that
are a superset of the requested flags; if no device memory type satisfies
both conditions, `AllocateMemoryForResource` reports failure instead of an
approximate match. -/
theorem allocateMemory_type_selection (memoryTypeBits memProperties : Nat)
    (types : List Nat) :
    (∀ i, findMemoryTypeIndex memoryTypeBits memProperties types = some i →
      i < types.length ∧ Nat.testBit memoryTypeBits i ∧
      Nat.land (types.getD i 0) memProperties = memProperties) ∧
    ((∀ i < types.length, ¬ (Nat.testBit memoryTypeBits i ∧
        Nat.land (types.getD i 0) memProperties = memProperties)) →
      ∀ ok, AllocateMemoryForResource memProperties memoryTypeBits types ok
        = false) :=
  ⟨fun i h => findMemoryTypeIndex_sound memoryTypeBits memProperties types i h,
   fun h ok => findMemoryTypeIndex_none_fail memoryTypeBits memProperties
     types h ok⟩

theorem allocateMemory_type_selection_witness :
    0 < 1 ∧ Nat.testBit 1 0 ∧ Nat.land 3 2 = 2 :=
  (allocateMemory_type_selection 1 2 [3]).1 0 (by decide)

theorem drawFrame_outOfDate_no_reset (env : DrawFrameEnv) (s : FrameLoopState)
    (h : env.acquireResult = VkStatus.outOfDate) (slot : Nat) :
    DrawEvent.resetFrameReadyFence slot ∉ (DrawFrame env s).trace := by
  simp [DrawFrame, h]

theorem drawFrame_reset_after_image_wait (env : DrawFrameEnv)
    (s : FrameLoopState) (p : Nat)
    (hp : s.image_rendered_fences.getD env.imageIndex none = some p)
    (slot : Nat)
    (hm : DrawEvent.resetFrameReadyFence slot ∈ (DrawFrame env s).trace) :
    ∃ rest, (DrawFrame env s).trace =
      DrawEvent.waitFrameReadyFence s.current_frame ::
      DrawEvent.waitImageRenderedFence p ::
      DrawEvent.resetFrameReadyFence s.current_frame :: rest := by
  obtain ⟨ar, ii, so, pr, fr⟩ := env
  obtain ⟨cf, fences⟩ := s
  simp only [List.getD, List.get?_eq_getElem?] at hp
  cases ar with
  | outOfDate => simp [DrawFrame] at hm
  | failure => simp [DrawFrame] at hm
  | success =>
    cases so <;> cases pr <;> cases fr <;> (simp only [DrawFrame]; simp [hp])
  | suboptimal =>
    cases so <;> cases pr <;> cases fr <;> (simp only [DrawFrame]; simp [hp])

theorem drawFrame_reset_implies_submit_or_stop (env : DrawFrameEnv)
    (s : FrameLoopState) (slot : Nat)
    (hm : DrawEvent.resetFrameReadyFence slot ∈ (DrawFrame env s).trace) :
    slot = s.current_frame ∧
      (DrawEvent.submitFenced env.imageIndex s.current_frame ∈
          (DrawFrame env s).trace ∨
        (DrawFrame env s).keepRunning = false) := by
  obtain ⟨ar, ii, so, pr, fr⟩ := env
  obtain ⟨cf, fences⟩ := s
  cases hp : fences[ii]?.getD none with
  | none =>
    cases ar <;> cases so <;> cases pr <;> cases fr <;>
      (simp only [DrawFrame] at hm ⊢; simp [hp] at hm ⊢) <;> simp [hm]
  | some p =>
    cases ar <;> cases so <;> cases pr <;> cases fr <;>
      (simp only [DrawFrame] at hm ⊢; simp [hp] at hm ⊢) <;> simp [hm]

/-- C8: in every `DrawFrame` iteration, (i) on the OUT_OF_DATE acquire path
the current slot's frame-ready fence is never reset; (ii) when a pending
image-rendered fence exists for the acquired image, any reset of the
frame-ready fence happens strictly after the wait on that pending fence;
and (iii) once the fence is reset, the same iteration either submits a
command buffer fenced by that same slot's fence or returns false,
terminating the frame loop. -/
theorem drawFrame_fence_protocol (env : DrawFrameEnv) (s : FrameLoopState) :
    (env.acquireResult = VkStatus.outOfDate →
      ∀ slot, DrawEvent.resetFrameReadyFence slot ∉ (DrawFrame env s).trace) ∧
    (∀ p, s.image_rendered_fences.getD env.imageIndex none = some p →
      ∀ slot,
        DrawEvent.resetFrameReadyFence slot ∈ (DrawFrame env s).trace →
        ∃ rest, (DrawFrame env s).trace =
          DrawEvent.waitFrameReadyFence s.current_frame ::
          DrawEvent.waitImageRenderedFence p ::
          DrawEvent.resetFrameReadyFence s.current_frame :: rest) ∧
    (∀ slot, DrawEvent.resetFrameReadyFence slot ∈ (DrawFrame env s).trace →
      slot = s.current_frame ∧
        (DrawEvent.submitFenced env.imageIndex s.current_frame ∈
            (DrawFrame env s).trace ∨
          (DrawFrame env s).keepRunning = false)) :=
  ⟨fun h slot => drawFrame_outOfDate_no_reset env s h slot,
   fun p hp slot hm => drawFrame_reset_after_image_wait env s p hp slot hm,
   fun slot hm => drawFrame_reset_implies_submit_or_stop env s slot hm⟩

theorem drawFrame_fence_protocol_witness :
    0 = 0 ∧
      (DrawEvent.submitFenced 1 0 ∈
          (DrawFrame demoDrawEnv demoLoopState).trace ∨
        (DrawFrame demoDrawEnv demoLoopState).keepRunning = false) :=
  (drawFrame_fence_protocol demoDrawEnv demoLoopState).2.2 0 (by decide)

end PointLight
